import Mathlib

/-
Shallow embedding of src/main.py (NatalBot): a Telegram natal-chart bot built
on python-telegram-bot's ConversationHandler, Gemini text generation, and a
PostgreSQL store.

Modelling conventions:
- Conversation routing follows the ConversationHandler built in main (lines
  178-185): entry point CommandHandler("start", start); state handlers
  GET_BIRTH_DATE / GET_BIRTH_CITY, each MessageHandler(TEXT and not COMMAND);
  fallbacks CommandHandler("cancel", cancel) then
  MessageHandler(COMMAND or TEXT, unknown).  A second application-level
  MessageHandler(COMMAND, unknown) (line 188) catches commands when no
  conversation is active.  Returning a state moves the conversation there,
  returning ConversationHandler.END removes the conversation, returning None
  (or raising) leaves the conversation state untouched.
- context.user_data is per-user storage that persists across conversations;
  the code never deletes the key birth_date.
- External nondeterminism for one city-step turn is a World: the outcome of
  model.generate_content, whether sending the generated-text reply succeeds,
  and the database behaviour (connect, insert-and-commit).
- Observable effects of a turn are collected in Effects: delivered replies,
  generation-backend calls with their safety settings, invocations of
  save_reading_to_db with their arguments, database connections opened and
  closed, INSERT attempts, and whether an exception escaped the handler.
-/

/-- Conversation states of the handler (main.py lines 15-16):
GET_BIRTH_DATE = 0, GET_BIRTH_CITY = 1. -/
inductive ConvState
  | GET_BIRTH_DATE
  | GET_BIRTH_CITY
deriving DecidableEq

/-- context.user_data: the only key the code uses is birth_date
(set at line 108, read at line 120, never deleted). -/
structure UserData where
  birth_date : Option String
deriving DecidableEq

/-- Replies sent to the user, one constructor per reply_text / reply_html
call site in main.py (lines 98, 109, 122, 143, 150, 161, 168). -/
inductive Reply
  | welcome
  | promptCity
  | generating
  | generated (text : String)
  | apology
  | cancelAck
  | unknownCmd
deriving DecidableEq

/-- One entry of the safety_settings list passed to generate_content. -/
structure SafetySetting where
  category : String
  threshold : String
deriving DecidableEq

/-- The fixed safety_settings list of main.py lines 135-140. -/
def safety_settings : List SafetySetting :=
  [⟨"HARM_CATEGORY_HARASSMENT", "BLOCK_NONE"⟩,
   ⟨"HARM_CATEGORY_HATE_SPEECH", "BLOCK_NONE"⟩,
   ⟨"HARM_CATEGORY_SEXUALLY_EXPLICIT", "BLOCK_NONE"⟩,
   ⟨"HARM_CATEGORY_DANGEROUS_CONTENT", "BLOCK_NONE"⟩]

/-- The prompt built at main.py lines 124-129 from the captured date and city. -/
def prompt_text (birth_date user_birth_city : String) : String :=
  "Создай очень краткую и обобщенную натальную карту для человека, " ++
  "родившегося " ++ birth_date ++ " в городе " ++ user_birth_city ++ ". " ++
  "Включи общие характеристики личности, основные планетарные влияния " ++
  "(например, знак зодиака по Солнцу, асцендент, лунный знак - если возможно из общих данных)." ++
  "Представь информацию в формате, удобном для чтения, без излишних астрологических терминов."

/-- One call to model.generate_content: the prompt and the safety settings
it carries (main.py lines 133-141). -/
structure GenCall where
  prompt : String
  safety : List SafetySetting
deriving DecidableEq

/-- A row of natal_readings as inserted by save_reading_to_db
(main.py lines 80-83). -/
structure ReadingRecord where
  user_id : Nat
  birth_date : String
  birth_city : String
  gemini_response : String
deriving DecidableEq

/-- Database behaviour for one save_reading_to_db call: whether
psycopg2.connect succeeds and whether the INSERT-and-commit succeeds. -/
structure DbWorld where
  connectOk : Bool
  writeOk : Bool
deriving DecidableEq

/-- Outcome of model.generate_content: a text payload, or any raised error. -/
inductive GenResult
  | ok (text : String)
  | err
deriving DecidableEq

/-- External nondeterminism for one turn: the generation outcome, whether the
reply_text delivering the generated text (line 143) succeeds, and the
database behaviour. -/
structure World where
  gen : GenResult
  replyOk : Bool
  db : DbWorld
deriving DecidableEq

/-- get_db_connection (main.py lines 39-48): returns a connection on success,
None when psycopg2.connect raises (the exception is caught there). -/
def get_db_connection (db : DbWorld) : Option Unit :=
  if db.connectOk then some () else none

/-- Effects of save_reading_to_db: connections opened and closed, INSERT
attempts, whether the commit took effect, and whether an exception escaped. -/
structure SaveResult where
  connsOpened : Nat
  connsClosed : Nat
  insertAttempts : List ReadingRecord
  committed : Bool
  raised : Bool
deriving DecidableEq

/-- save_reading_to_db (main.py lines 74-90).  If get_db_connection returns
None the body is skipped.  Otherwise the INSERT is attempted inside
try/except Exception (any failure is caught and logged, line 86-87) and the
connection is closed in the finally block (lines 88-90). -/
def save_reading_to_db (user_id : Nat)
    (birth_date birth_city gemini_response : String) (db : DbWorld) : SaveResult :=
  match get_db_connection db with
  | none => ⟨0, 0, [], false, false⟩
  | some _ =>
      ⟨1, 1, [⟨user_id, birth_date, birth_city, gemini_response⟩],
       db.writeOk, false⟩

/-- Observable effects accumulated over one or more turns. -/
structure Effects where
  replies : List Reply
  genCalls : List GenCall
  storeCalls : List ReadingRecord
  connsOpened : Nat
  connsClosed : Nat
  insertAttempts : List ReadingRecord
  raised : Bool
deriving DecidableEq

def Effects.empty : Effects := ⟨[], [], [], 0, 0, [], false⟩

def Effects.append (a b : Effects) : Effects :=
  ⟨a.replies ++ b.replies, a.genCalls ++ b.genCalls,
   a.storeCalls ++ b.storeCalls, a.connsOpened + b.connsOpened,
   a.connsClosed + b.connsClosed, a.insertAttempts ++ b.insertAttempts,
   a.raised || b.raised⟩

/-- What a handler returns to the ConversationHandler: a next state, or
ConversationHandler.END. -/
inductive HRet
  | toState (s : ConvState)
  | END
deriving DecidableEq

/-- Result of running one handler: its return value (none when the handler
returned None or raised), the updated user_data, and its effects. -/
structure HandlerResult where
  ret : Option HRet
  user_data : UserData
  effects : Effects
deriving DecidableEq

/-- start (main.py lines 95-102): greet, ask for the birth date,
return GET_BIRTH_DATE.  user_data is not touched. -/
def start (ud : UserData) : HandlerResult :=
  ⟨some (HRet.toState ConvState.GET_BIRTH_DATE), ud,
   ⟨[Reply.welcome], [], [], 0, 0, [], false⟩⟩

/-- get_birth_date (main.py lines 105-112): store the raw message text as
birth_date, ask for the city, return GET_BIRTH_CITY. -/
def get_birth_date (text : String) (_ud : UserData) : HandlerResult :=
  ⟨some (HRet.toState ConvState.GET_BIRTH_CITY), ⟨some text⟩,
   ⟨[Reply.promptCity], [], [], 0, 0, [], false⟩⟩

/-- get_birth_city (main.py lines 115-154).
Line 120 reads context.user_data with brackets before the try block: when
birth_date is absent this raises KeyError, nothing is sent and the handler
does not return.  Otherwise the "generating" notice is sent (line 122), then
inside try: generate_content is called with the fixed safety settings; on
success its text is sent (line 143) and save_reading_to_db is called
(line 146); any exception in the try body - generation failure or failure of
the reply at line 143 - is caught and the apology is sent (lines 148-152).
All non-raising paths return ConversationHandler.END (line 154). -/
def get_birth_city (user_id : Nat) (ud : UserData) (user_birth_city : String)
    (w : World) : HandlerResult :=
  match ud.birth_date with
  | none => ⟨none, ud, ⟨[], [], [], 0, 0, [], true⟩⟩
  | some birth_date =>
      let call : GenCall := ⟨prompt_text birth_date user_birth_city, safety_settings⟩
      match w.gen with
      | GenResult.err =>
          ⟨some HRet.END, ud,
           ⟨[Reply.generating, Reply.apology], [call], [], 0, 0, [], false⟩⟩
      | GenResult.ok g =>
          if w.replyOk then
            let s := save_reading_to_db user_id birth_date user_birth_city g w.db
            ⟨some HRet.END, ud,
             ⟨[Reply.generating, Reply.generated g], [call],
              [⟨user_id, birth_date, user_birth_city, g⟩],
              s.connsOpened, s.connsClosed, s.insertAttempts, s.raised⟩⟩
          else
            ⟨some HRet.END, ud,
             ⟨[Reply.generating, Reply.apology], [call], [], 0, 0, [], false⟩⟩

/-- cancel (main.py lines 157-164): acknowledge and return END. -/
def cancel (ud : UserData) : HandlerResult :=
  ⟨some HRet.END, ud, ⟨[Reply.cancelAck], [], [], 0, 0, [], false⟩⟩

/-- unknown (main.py lines 167-168): send the unrecognized-command reply;
the function returns None, so a conversation it is called from as a fallback
stays in its current state. -/
def unknown (ud : UserData) : HandlerResult :=
  ⟨none, ud, ⟨[Reply.unknownCmd], [], [], 0, 0, [], false⟩⟩

/-- Per-user bot state: the ConversationHandler's conversation entry for the
user (none when no conversation is active) and the user_data dict. -/
structure BotState where
  conversation : Option ConvState
  user_data : UserData
deriving DecidableEq

/-- Before any update: no conversation, empty user_data. -/
def initialState : BotState := ⟨none, ⟨none⟩⟩

/-- Inbound updates the handlers distinguish: /start, /cancel, a plain text
message, or any other command. -/
inductive Trigger
  | startCmd
  | cancelCmd
  | textMsg (body : String)
  | otherCmd (cmd : String)
deriving DecidableEq

/-- Apply a handler result: a returned state moves the conversation there,
END removes it, None (or an escaped exception) leaves it unchanged. -/
def applyResult (st : BotState) (r : HandlerResult) : BotState × Effects :=
  (⟨match r.ret with
    | some (HRet.toState s) => some s
    | some HRet.END => none
    | none => st.conversation,
    r.user_data⟩, r.effects)

/-- One update dispatched as by the application of main.py lines 176-188.
No conversation: only the entry point /start matches the ConversationHandler;
other commands fall through to the application-level unknown handler
(line 188); a plain text message matches nothing and is dropped.
Active conversation: a non-command text message goes to the state's handler;
/cancel goes to the cancel fallback; any other command matches the
COMMAND-or-TEXT fallback and goes to unknown. -/
def step (user_id : Nat) (st : BotState) (ev : Trigger) (w : World) :
    BotState × Effects :=
  match st.conversation with
  | none =>
      match ev with
      | Trigger.startCmd => applyResult st (start st.user_data)
      | Trigger.textMsg _ => (st, Effects.empty)
      | Trigger.cancelCmd => applyResult st (unknown st.user_data)
      | Trigger.otherCmd _ => applyResult st (unknown st.user_data)
  | some cs =>
      match ev with
      | Trigger.textMsg body =>
          match cs with
          | ConvState.GET_BIRTH_DATE =>
              applyResult st (get_birth_date body st.user_data)
          | ConvState.GET_BIRTH_CITY =>
              applyResult st (get_birth_city user_id st.user_data body w)
      | Trigger.cancelCmd => applyResult st (cancel st.user_data)
      | Trigger.startCmd => applyResult st (unknown st.user_data)
      | Trigger.otherCmd _ => applyResult st (unknown st.user_data)

/-- Run a sequence of updates, accumulating effects. -/
def run (user_id : Nat) (st : BotState) :
    List (Trigger × World) → BotState × Effects
  | [] => (st, Effects.empty)
  | tw :: rest =>
      let p := step user_id st tw.1 tw.2
      let q := run user_id p.1 rest
      (q.1, Effects.append p.2 q.2)

/-- The texts of the generated-text replies in a reply list. -/
def generatedTexts : List Reply → List String
  | [] => []
  | Reply.generated t :: rest => t :: generatedTexts rest
  | _ :: rest => generatedTexts rest

/-- A world whose generation call fails; used where the world is irrelevant
(the start and date steps never consult it). -/
def wNull : World := ⟨GenResult.err, true, ⟨false, false⟩⟩

/-- C1: a conversation that starts, captures a birth date, and then receives a
city message with a successful generation returning g delivers exactly the
generated text g and attempts exactly one ReadingRecord persistence carrying
the user id, the captured date, the city text, and g. -/
theorem C1_success_reply_and_single_store (user_id : Nat) (d c g : String)
    (w1 w2 : World) (db : DbWorld) :
    generatedTexts (run user_id initialState
      [(Trigger.startCmd, w1), (Trigger.textMsg d, w2),
       (Trigger.textMsg c, ⟨GenResult.ok g, true, db⟩)]).2.replies = [g] ∧
    (run user_id initialState
      [(Trigger.startCmd, w1), (Trigger.textMsg d, w2),
       (Trigger.textMsg c, ⟨GenResult.ok g, true, db⟩)]).2.storeCalls =
      [⟨user_id, d, c, g⟩] :=
  ⟨rfl, rfl⟩

/-- C3: at the city step with a captured date, a generation failure yields no
store call, the "generating" notice followed by the apology, no escaped
exception, and the conversation still terminates (END removes it). -/
theorem C3_generation_failure_completes (user_id : Nat) (d c : String)
    (ro : Bool) (db : DbWorld) :
    (step user_id ⟨some ConvState.GET_BIRTH_CITY, ⟨some d⟩⟩
      (Trigger.textMsg c) ⟨GenResult.err, ro, db⟩).2.storeCalls = [] ∧
    (step user_id ⟨some ConvState.GET_BIRTH_CITY, ⟨some d⟩⟩
      (Trigger.textMsg c) ⟨GenResult.err, ro, db⟩).2.replies =
      [Reply.generating, Reply.apology] ∧
    (step user_id ⟨some ConvState.GET_BIRTH_CITY, ⟨some d⟩⟩
      (Trigger.textMsg c) ⟨GenResult.err, ro, db⟩).2.raised = false ∧
    (step user_id ⟨some ConvState.GET_BIRTH_CITY, ⟨some d⟩⟩
      (Trigger.textMsg c) ⟨GenResult.err, ro, db⟩).1.conversation = none :=
  ⟨rfl, rfl, rfl, rfl⟩

/-- C4 counterexample: start, send the date, cancel, then send a further text
message - the birth_date captured before the cancellation is still present in
the per-user data afterwards, so state is carried over past the cancellation,
contrary to the claim. -/
theorem C4_counterexample :
    (run 7 initialState
      [(Trigger.startCmd, wNull), (Trigger.textMsg "15.03.1990", wNull),
       (Trigger.cancelCmd, wNull), (Trigger.textMsg "Paris", wNull)]).1 =
      ⟨none, ⟨some "15.03.1990"⟩⟩ :=
  rfl

/-- C4 amended: a cancel at any active state sends exactly one cancellation
acknowledgment, stores and generates nothing, and removes the conversation,
so a subsequent text message matches no handler at all (it is processed as a
session-less event, with no reply and no state change); however the user_data
captured so far - including birth_date - is not cleared and persists. -/
theorem C4_amended_cancel_behaviour (user_id : Nat) (ud : UserData)
    (cs : ConvState) (w w2 : World) (t : String) :
    (step user_id ⟨some cs, ud⟩ Trigger.cancelCmd w).2.replies =
      [Reply.cancelAck] ∧
    (step user_id ⟨some cs, ud⟩ Trigger.cancelCmd w).2.storeCalls = [] ∧
    (step user_id ⟨some cs, ud⟩ Trigger.cancelCmd w).2.genCalls = [] ∧
    (step user_id ⟨some cs, ud⟩ Trigger.cancelCmd w).2.raised = false ∧
    (step user_id ⟨some cs, ud⟩ Trigger.cancelCmd w).1 = ⟨none, ud⟩ ∧
    step user_id ⟨none, ud⟩ (Trigger.textMsg t) w2 = (⟨none, ud⟩, Effects.empty) :=
  ⟨rfl, rfl, rfl, rfl, rfl, rfl⟩

/-- C7: evaluation at the failing input.  At the city step with no captured
birth_date, line 120 raises KeyError before anything is sent: the exception
escapes the handler, no reply (in particular no cancellation acknowledgment)
is produced, and the conversation remains at GET_BIRTH_CITY instead of being
cancelled. -/
theorem C7_missing_date_raises :
    (step 7 ⟨some ConvState.GET_BIRTH_CITY, ⟨none⟩⟩
      (Trigger.textMsg "Paris") wNull).2.raised = true ∧
    (step 7 ⟨some ConvState.GET_BIRTH_CITY, ⟨none⟩⟩
      (Trigger.textMsg "Paris") wNull).2.replies = [] ∧
    (step 7 ⟨some ConvState.GET_BIRTH_CITY, ⟨none⟩⟩
      (Trigger.textMsg "Paris") wNull).1.conversation =
      some ConvState.GET_BIRTH_CITY :=
  ⟨rfl, rfl, rfl⟩

/-- C9: while a conversation is active, any command other than /cancel
(/start included) is answered with the unrecognized-command reply by the
fallback unknown handler, which returns None: the conversation state and all
captured user_data are unchanged. -/
theorem C9_unknown_command_preserves_session (user_id : Nat) (ud : UserData)
    (cs : ConvState) (w : World) (c : String) :
    step user_id ⟨some cs, ud⟩ (Trigger.otherCmd c) w =
      (⟨some cs, ud⟩, ⟨[Reply.unknownCmd], [], [], 0, 0, [], false⟩) ∧
    step user_id ⟨some cs, ud⟩ Trigger.startCmd w =
      (⟨some cs, ud⟩, ⟨[Reply.unknownCmd], [], [], 0, 0, [], false⟩) :=
  ⟨rfl, rfl⟩

/-- C10: generation succeeds but delivering the generated-text reply fails:
the exception from line 143 is caught by the same except clause, so no
persistence is attempted (no store call, no connection opened), the user gets
the apology instead, nothing escapes, and the conversation still ends. -/
theorem C10_reply_failure_blocks_store (user_id : Nat) (d c g : String)
    (db : DbWorld) :
    (step user_id ⟨some ConvState.GET_BIRTH_CITY, ⟨some d⟩⟩
      (Trigger.textMsg c) ⟨GenResult.ok g, false, db⟩).2.storeCalls = [] ∧
    (step user_id ⟨some ConvState.GET_BIRTH_CITY, ⟨some d⟩⟩
      (Trigger.textMsg c) ⟨GenResult.ok g, false, db⟩).2.connsOpened = 0 ∧
    (step user_id ⟨some ConvState.GET_BIRTH_CITY, ⟨some d⟩⟩
      (Trigger.textMsg c) ⟨GenResult.ok g, false, db⟩).2.replies =
      [Reply.generating, Reply.apology] ∧
    (step user_id ⟨some ConvState.GET_BIRTH_CITY, ⟨some d⟩⟩
      (Trigger.textMsg c) ⟨GenResult.ok g, false, db⟩).2.raised = false ∧
    (step user_id ⟨some ConvState.GET_BIRTH_CITY, ⟨some d⟩⟩
      (Trigger.textMsg c) ⟨GenResult.ok g, false, db⟩).1.conversation = none :=
  ⟨rfl, rfl, rfl, rfl, rfl⟩

/-- The one-directional invariant that does hold: whenever the conversation
is at GET_BIRTH_CITY, birth_date is present in user_data. -/
def dateInv (st : BotState) : Bool :=
  match st.conversation with
  | some ConvState.GET_BIRTH_CITY => st.user_data.birth_date.isSome
  | _ => true

lemma dateInv_step (user_id : Nat) (st : BotState) (ev : Trigger) (w : World)
    (h : dateInv st = true) : dateInv (step user_id st ev w).1 = true := by
  rcases st with ⟨conv, ⟨obd⟩⟩
  rcases w with ⟨g, ro, db⟩
  cases conv with
  | none => cases obd <;> cases ev <;> rfl
  | some cs =>
      cases obd with
      | none =>
          cases cs with
          | GET_BIRTH_DATE => cases ev <;> rfl
          | GET_BIRTH_CITY => exact Bool.noConfusion h
      | some d =>
          cases cs with
          | GET_BIRTH_DATE => cases ev <;> rfl
          | GET_BIRTH_CITY =>
              cases ev with
              | textMsg body =>
                  cases g with
                  | err => rfl
                  | ok t => cases ro <;> rfl
              | startCmd => rfl
              | cancelCmd => rfl
              | otherCmd c => rfl

lemma dateInv_run (user_id : Nat) (st : BotState)
    (tws : List (Trigger × World)) (h : dateInv st = true) :
    dateInv (run user_id st tws).1 = true := by
  induction tws generalizing st with
  | nil => exact h
  | cons tw rest ih =>
      exact ih (step user_id st tw.1 tw.2).1 (dateInv_step user_id st tw.1 tw.2 h)

/-- C2 counterexample: a completed conversation (start, date "15.03.1990",
city "Paris" with successful generation) ends with no active conversation -
the terminal COMPLETED pseudo-state - yet birth_date is still present in the
per-user data, so "birth_date is set iff state is AWAITING_CITY" fails. -/
theorem C2_counterexample :
    (run 7 initialState
      [(Trigger.startCmd, wNull), (Trigger.textMsg "15.03.1990", wNull),
       (Trigger.textMsg "Paris",
         ⟨GenResult.ok "Summary X", true, ⟨true, true⟩⟩)]).1 =
      ⟨none, ⟨some "15.03.1990"⟩⟩ :=
  rfl

/-- C2 amended: one direction of the invariant holds in every reachable
state - at GET_BIRTH_CITY the birth_date is always present; the converse
direction fails because the code never deletes user_data, so birth_date
persists after the conversation terminates. -/
theorem C2_amended_city_implies_date (user_id : Nat)
    (tws : List (Trigger × World))
    (h : (run user_id initialState tws).1.conversation =
      some ConvState.GET_BIRTH_CITY) :
    (run user_id initialState tws).1.user_data.birth_date.isSome = true := by
  have hinv := dateInv_run user_id initialState tws rfl
  simp only [dateInv, h] at hinv
  exact hinv

/-- Witness for C2_amended_city_implies_date at a concrete conversation that
has just captured the date. -/
theorem C2_amended_witness :
    ((run 7 initialState
      [(Trigger.startCmd, wNull),
       (Trigger.textMsg "15.03.1990", wNull)]).1).user_data.birth_date.isSome =
      true :=
  C2_amended_city_implies_date 7
    [(Trigger.startCmd, wNull), (Trigger.textMsg "15.03.1990", wNull)] rfl

lemma genCall_safety_step (user_id : Nat) (st : BotState) (ev : Trigger)
    (w : World) (call : GenCall)
    (h : call ∈ (step user_id st ev w).2.genCalls) :
    call.safety = safety_settings := by
  rcases st with ⟨conv, ⟨obd⟩⟩
  rcases w with ⟨g, ro, db⟩
  cases conv with
  | none =>
      cases ev <;> simp [step, applyResult, start, unknown, Effects.empty] at h
  | some cs =>
      cases cs with
      | GET_BIRTH_DATE =>
          cases ev <;>
            simp [step, applyResult, get_birth_date, cancel, unknown] at h
      | GET_BIRTH_CITY =>
          cases ev with
          | textMsg body =>
              cases obd with
              | none => simp [step, applyResult, get_birth_city] at h
              | some d =>
                  cases g with
                  | err =>
                      simp [step, applyResult, get_birth_city] at h
                      rw [h]
                  | ok t =>
                      cases ro <;>
                        simp [step, applyResult, get_birth_city] at h <;>
                        rw [h]
          | startCmd => simp [step, applyResult, unknown] at h
          | cancelCmd => simp [step, applyResult, cancel] at h
          | otherCmd c => simp [step, applyResult, unknown] at h

lemma genCall_safety_run (user_id : Nat) (st : BotState)
    (tws : List (Trigger × World)) (call : GenCall)
    (h : call ∈ (run user_id st tws).2.genCalls) :
    call.safety = safety_settings := by
  induction tws generalizing st with
  | nil => simp [run, Effects.empty] at h
  | cons tw rest ih =>
      have h2 : call ∈ (step user_id st tw.1 tw.2).2.genCalls ++
          (run user_id (step user_id st tw.1 tw.2).1 rest).2.genCalls := h
      rcases List.mem_append.mp h2 with h3 | h3
      · exact genCall_safety_step user_id st tw.1 tw.2 call h3
      · exact ih (step user_id st tw.1 tw.2).1 h3

/-- C5: every generation-backend call made over any run of the bot carries
the same fixed safety configuration, with all four content-safety categories
set to BLOCK_NONE. -/
theorem C5_fixed_safety_all_calls (user_id : Nat) (st : BotState)
    (tws : List (Trigger × World)) (call : GenCall)
    (h : call ∈ (run user_id st tws).2.genCalls) :
    call.safety =
      [⟨"HARM_CATEGORY_HARASSMENT", "BLOCK_NONE"⟩,
       ⟨"HARM_CATEGORY_HATE_SPEECH", "BLOCK_NONE"⟩,
       ⟨"HARM_CATEGORY_SEXUALLY_EXPLICIT", "BLOCK_NONE"⟩,
       ⟨"HARM_CATEGORY_DANGEROUS_CONTENT", "BLOCK_NONE"⟩] :=
  genCall_safety_run user_id st tws call h

/-- Witness for C5_fixed_safety_all_calls on the call made by a concrete
completed conversation. -/
theorem C5_witness :
    (⟨prompt_text "15.03.1990" "Paris", safety_settings⟩ : GenCall).safety =
      [⟨"HARM_CATEGORY_HARASSMENT", "BLOCK_NONE"⟩,
       ⟨"HARM_CATEGORY_HATE_SPEECH", "BLOCK_NONE"⟩,
       ⟨"HARM_CATEGORY_SEXUALLY_EXPLICIT", "BLOCK_NONE"⟩,
       ⟨"HARM_CATEGORY_DANGEROUS_CONTENT", "BLOCK_NONE"⟩] :=
  C5_fixed_safety_all_calls 7 initialState
    [(Trigger.startCmd, wNull), (Trigger.textMsg "15.03.1990", wNull),
     (Trigger.textMsg "Paris",
       ⟨GenResult.ok "Summary X", true, ⟨true, true⟩⟩)]
    ⟨prompt_text "15.03.1990" "Paris", safety_settings⟩ (List.Mem.head _)

/-- C6: a store failure of any kind (connection refused, or INSERT/commit
failure) is absorbed inside save_reading_to_db: it never raises, and the
city-step turn still delivers exactly the "generating" notice followed by the
generated text - the replies are the same for every database behaviour - and
the conversation still ends. -/
theorem C6_store_failure_isolated (user_id n : Nat) (d c g bd bc gr : String)
    (db : DbWorld) :
    (save_reading_to_db n bd bc gr db).raised = false ∧
    (step user_id ⟨some ConvState.GET_BIRTH_CITY, ⟨some d⟩⟩
      (Trigger.textMsg c) ⟨GenResult.ok g, true, db⟩).2.replies =
      [Reply.generating, Reply.generated g] ∧
    (step user_id ⟨some ConvState.GET_BIRTH_CITY, ⟨some d⟩⟩
      (Trigger.textMsg c) ⟨GenResult.ok g, true, db⟩).2.raised = false ∧
    (step user_id ⟨some ConvState.GET_BIRTH_CITY, ⟨some d⟩⟩
      (Trigger.textMsg c) ⟨GenResult.ok g, true, db⟩).1.conversation = none := by
  rcases db with ⟨co, wo⟩
  cases co <;> exact ⟨rfl, rfl, rfl, rfl⟩

lemma conns_balanced_step (user_id : Nat) (st : BotState) (ev : Trigger)
    (w : World) :
    (step user_id st ev w).2.connsOpened =
      (step user_id st ev w).2.connsClosed := by
  rcases st with ⟨conv, ⟨obd⟩⟩
  rcases w with ⟨g, ro, ⟨co, wo⟩⟩
  cases conv with
  | none => cases ev <;> rfl
  | some cs =>
      cases cs with
      | GET_BIRTH_DATE => cases ev <;> rfl
      | GET_BIRTH_CITY =>
          cases ev with
          | textMsg body =>
              cases obd with
              | none => rfl
              | some d =>
                  cases g with
                  | err => rfl
                  | ok t => cases ro <;> cases co <;> rfl
          | startCmd => rfl
          | cancelCmd => rfl
          | otherCmd c => rfl

lemma conns_balanced_run (user_id : Nat) (st : BotState)
    (tws : List (Trigger × World)) :
    (run user_id st tws).2.connsOpened =
      (run user_id st tws).2.connsClosed := by
  induction tws generalizing st with
  | nil => rfl
  | cons tw rest ih =>
      show (step user_id st tw.1 tw.2).2.connsOpened +
          (run user_id (step user_id st tw.1 tw.2).1 rest).2.connsOpened =
        (step user_id st tw.1 tw.2).2.connsClosed +
          (run user_id (step user_id st tw.1 tw.2).1 rest).2.connsClosed
      rw [conns_balanced_step user_id st tw.1 tw.2,
        ih (step user_id st tw.1 tw.2).1]

/-- C8: save_reading_to_db opens exactly one connection when connecting
succeeds and none otherwise, and closes exactly as many as it opens - on the
success path and on every failure path (any writeOk) alike; consequently over
any run of the bot the connections opened equal the connections closed. -/
theorem C8_connection_scoped_release (n : Nat) (bd bc gr : String)
    (db : DbWorld) (user_id : Nat) (st : BotState)
    (tws : List (Trigger × World)) :
    (save_reading_to_db n bd bc gr db).connsOpened =
      (if db.connectOk then 1 else 0) ∧
    (save_reading_to_db n bd bc gr db).connsClosed =
      (if db.connectOk then 1 else 0) ∧
    (run user_id st tws).2.connsOpened =
      (run user_id st tws).2.connsClosed := by
  refine ⟨?_, ?_, conns_balanced_run user_id st tws⟩
  · rcases db with ⟨co, wo⟩; cases co <;> rfl
  · rcases db with ⟨co, wo⟩; cases co <;> rfl
